import Mathlib

/-!
Verification development for the coordination layer of the mna-automation
repository (src/app.py): the shared processing-status subsystem (file-watcher
handler, polling reconciler, background pipeline runner, start command) and
the M&A elicitation state machine (MAStrategyBot).

Every definition below is a direct shallow embedding of the corresponding
Python code in src/app.py; line references are given in doc comments.
-/

namespace MnaApp

/-! ## String helpers mirroring the Python primitives used by app.py -/

/-- Python `needle in hay` substring test, on explicit character lists. -/
def containsSub (needle : List Char) : List Char → Bool
  | [] => needle.isEmpty
  | c :: t => needle.isPrefixOf (c :: t) || containsSub needle t

/-- Python `needle in hay` on strings (substring containment). -/
def strContains (hay needle : String) : Bool :=
  containsSub needle.data hay.data

/-- Python `s.endswith(suffix)`. -/
def strEndsWith (s suffix : String) : Bool :=
  suffix.data.isSuffixOf s.data

/-- Python `s.startswith(pre)`. -/
def strStartsWith (s pre : String) : Bool :=
  pre.data.isPrefixOf s.data

/-- Python `s.lower()` (ASCII, as used by app.py). -/
def strToLower (s : String) : String :=
  ⟨s.data.map Char.toLower⟩

/-- Python `s.capitalize()`: first character upper-cased, rest lower-cased. -/
def pyCapitalize (s : String) : String :=
  match s.data with
  | [] => ""
  | c :: cs => ⟨Char.toUpper c :: cs.map Char.toLower⟩

/-- Splitting a character list at a separator character (used to model
`os.path.basename` and Python `str.split("_")`). -/
def splitOnCharAux (sep : Char) : List Char → List Char → List (List Char)
  | [], acc => [acc.reverse]
  | c :: cs, acc =>
      if c = sep then acc.reverse :: splitOnCharAux sep cs []
      else splitOnCharAux sep cs (c :: acc)

/-- Python `str.split(sep)` for a one-character separator. -/
def splitOnChar (sep : Char) (s : String) : List String :=
  (splitOnCharAux sep s.data []).map (fun l => ⟨l⟩)

/-! ## Processing-status data model (app.py lines 29-40) -/

/-- app.py line 19: `BASE_DIR = "outputs"`. -/
def BASE_DIR : String := "outputs"

/-- app.py line 20: `FMP_DATA_DIR = os.path.join(BASE_DIR, "fmp_data")`. -/
def FMP_DATA_DIR : String := BASE_DIR ++ "/fmp_data"

/-- The `st.session_state["PROCESSING_STATUS"]` dictionary (app.py lines
30-40).  Timestamps are abstracted as natural numbers; the completed-task
set is a finite set of the task-id strings the code inserts. -/
structure ProcessingStatus where
  current_agent : Option String
  current_task : Option String
  start_time : Option Nat
  progress : ℚ
  message : String
  error : Option String
  completed_tasks : Finset String
  total_tasks : Nat
  is_running : Bool
deriving DecidableEq

/-- The initial PROCESSING_STATUS dictionary (app.py lines 30-40). -/
def initProcessingStatus : ProcessingStatus :=
  { current_agent := none
    current_task := none
    start_time := none
    progress := 0
    message := "Ready to start analysis"
    error := none
    completed_tasks := ∅
    total_tasks := 4
    is_running := false }

/-! ## File watcher: ImprovedFileChangeHandler._process_change
(app.py lines 77-160) -/

/-- `ImprovedFileChangeHandler._process_change` (app.py lines 77-160),
restricted to its effect on PROCESSING_STATUS.  `isDirectory` is
`event.is_directory`, `file_path` is `str(Path(event.src_path))`.  The
FILE_UPDATES timestamp writes and the final `st.rerun()` have no effect on
PROCESSING_STATUS and are omitted.  The branch order is that of the
source `if`/`elif` chain: in particular a per-company
`<symbol>_valuation.md` file under fmp_data is caught by the
`endswith("valuation.md")` branch, exactly as in the source. -/
def process_change (isDirectory : Bool) (file_path : String)
    (s : ProcessingStatus) : ProcessingStatus :=
  if isDirectory then s
  else if strEndsWith file_path "strategy_info.json" then
    { s with progress := max (mkRat 1 4) s.progress
             message := "Strategy information collected"
             current_task := some "Researching companies"
             completed_tasks := insert "strategy" s.completed_tasks }
  else if strEndsWith file_path "output.md" then
    { s with progress := max (mkRat 1 2) s.progress
             message := "Strategy report generated"
             current_task := some "Analyzing financials"
             completed_tasks := insert "report" s.completed_tasks }
  else if strEndsWith file_path "companies.json" then
    { s with progress := max (mkRat 3 4) s.progress
             message := "Companies identified"
             current_task := some "Performing valuation"
             completed_tasks := insert "companies" s.completed_tasks }
  else if strEndsWith file_path "valuation.md" then
    { s with progress := 1
             message := "Valuation complete"
             current_task := some "Analysis complete"
             completed_tasks := insert "valuation" s.completed_tasks
             is_running := false }
  else if strStartsWith file_path FMP_DATA_DIR
          && (strEndsWith file_path "_metrics.md"
              || strEndsWith file_path "_valuation.md") then
    { s with message := "Processing financial data for "
               ++ ((splitOnChar '_'
                     ((splitOnChar '/' file_path).getLastD file_path)).headD "") }
  else s

/-! ## Polling reconciler: check_file_updates (app.py lines 220-330) -/

/-- Which of the four milestone artifacts currently exist with non-zero
size (the `os.path.exists(p) and os.path.getsize(p) > 0` tests of
app.py lines 296 and 307, one flag per entry of `files_to_check`). -/
structure ArtifactsPresent where
  strategy_info : Bool
  strategy_report : Bool
  companies : Bool
  valuation_report : Bool
deriving DecidableEq

/-- One iteration of the `for file_key, ... in files_to_check.items()`
loop of `check_file_updates` (app.py lines 300-316), restricted to its
effect on PROCESSING_STATUS: when the artifact is present and its table
fraction strictly exceeds the current progress, progress/message/
current_task are overwritten and the task id inserted; otherwise the
status is untouched (the FILE_UPDATES timestamp write is omitted). -/
def reconcilerEntry (present : Bool) (frac : ℚ) (msg task taskId : String)
    (s : ProcessingStatus) : ProcessingStatus :=
  if present then
    if frac > s.progress then
      { s with progress := frac
               message := msg
               current_task := some task
               completed_tasks := insert taskId s.completed_tasks }
    else s
  else s

/-- The `files_found` counter of `check_file_updates` (app.py lines
284, 308). -/
def filesFound (fs : ArtifactsPresent) : Nat :=
  (if fs.strategy_info then 1 else 0)
    + (if fs.strategy_report then 1 else 0)
    + (if fs.companies then 1 else 0)
    + (if fs.valuation_report then 1 else 0)

/-- `check_file_updates` (app.py lines 220-330), restricted to its effect
on PROCESSING_STATUS.  The four `files_to_check` entries are processed in
dictionary insertion order with the fractions/messages of app.py lines
253-282; afterwards, if all four files were found and the status is
running, the completion update of lines 318-326 applies.  The fmp_data
directory scan (lines 287-298) touches only FILE_UPDATES timestamps, and
the `ANALYSIS_THREAD_STARTED` flag write and `st.rerun()` of lines
327-328 do not touch PROCESSING_STATUS; they are omitted. -/
def check_file_updates (fs : ArtifactsPresent) (s : ProcessingStatus) :
    ProcessingStatus :=
  let s1 := reconcilerEntry fs.strategy_info (mkRat 1 4)
    "Strategy information collected" "Researching companies" "strategy" s
  let s2 := reconcilerEntry fs.strategy_report (mkRat 1 2)
    "Strategy report generated" "Analyzing financials" "report" s1
  let s3 := reconcilerEntry fs.companies (mkRat 3 4)
    "Companies identified" "Performing valuation" "companies" s2
  let s4 := reconcilerEntry fs.valuation_report 1
    "Valuation complete" "Analysis complete" "valuation" s3
  if filesFound fs == 4 && s4.is_running then
    { s4 with is_running := false
              message := "Analysis complete"
              progress := 1
              current_task := some "Complete" }
  else s4

/-! ## Pipeline runner status updates: run_analysis_thread
(app.py lines 564-663) -/

/-- The status initialisation performed at the top of
`run_analysis_thread` (app.py lines 583-589); `now` abstracts
`datetime.now()`. -/
def runnerStart (now : Nat) (s : ProcessingStatus) : ProcessingStatus :=
  { s with start_time := some now
           is_running := true
           current_agent := some "strategist"
           current_task := some "Generating strategy report"
           message := "Starting analysis..." }

/-- The `progress_updates` table of `run_analysis_thread` (app.py lines
633-638). -/
def progress_updates (agent : String) : Option (ℚ × String) :=
  if agent == "strategist" then some (mkRat 1 4, "Generating strategy report")
  else if agent == "researcher" then some (mkRat 1 2, "Researching companies")
  else if agent == "analyst" then some (mkRat 3 4, "Analyzing financials")
  else if agent == "valuator" then some (1, "Generating valuation report")
  else none

/-- The per-stage status update of `run_analysis_thread` performed when a
streamed step carries an `agent_name` (app.py lines 611-649): the agent
and its task label are recorded, and if the agent is in the
`progress_updates` table, progress/current_task/message are assigned
unconditionally (lines 640-648). -/
def runnerAgentUpdate (agent : String) (s : ProcessingStatus) :
    ProcessingStatus :=
  let sA := { s with current_agent := some agent }
  let sB :=
    if agent == "strategist" then
      { sA with current_task := some "Generating strategy report" }
    else if agent == "researcher" then
      { sA with current_task := some "Researching companies" }
    else if agent == "analyst" then
      { sA with current_task := some "Analyzing financials" }
    else if agent == "valuator" then
      { sA with current_task := some "Generating valuation report" }
    else sA
  match progress_updates agent with
  | some (p, task) =>
      { sB with progress := p
                current_task := some task
                message := "Working on " ++ strToLower task }
  | none => sB

/-! ## Start-pipeline command: tail of main (app.py lines 857-904) -/

/-- The session-state flags steering the start-pipeline logic in `main`. -/
structure SessionFlags where
  conversation_ended : Bool
  analysis_started : Bool
  analysis_thread_started : Bool
deriving DecidableEq

/-- The thread-spawning tail of `main` (app.py lines 857-904), as a step
executed on each Streamlit script run: returns how many
`run_analysis_thread` background threads this pass spawns, together with
the updated session flags.  While the conversation is still open no
thread logic runs; once it has ended, the `Generate Strategy` button
(line 893) sets `analysis_started` and spawns a thread WITHOUT setting
`ANALYSIS_THREAD_STARTED` (lines 894-898); on later passes the `else`
branch spawns a thread whenever `ANALYSIS_THREAD_STARTED` is still false
and then sets it (lines 900-904). -/
def mainStartStep (f : SessionFlags) (buttonPressed : Bool) :
    Nat × SessionFlags :=
  if !f.conversation_ended then (0, f)
  else if !f.analysis_started then
    if buttonPressed then (1, { f with analysis_started := true })
    else (0, f)
  else
    if !f.analysis_thread_started then
      (1, { f with analysis_thread_started := true })
    else (0, f)

/-! ## Elicitation state machine: MAStrategyBot (app.py lines 333-561) -/

/-- The `Stage` enumeration (app.py lines 333-342). -/
inductive Stage where
  | INDUSTRY
  | GOALS
  | BUDGET
  | TIMELINE
  | FINANCIAL_HEALTH
  | MARKET_POSITION
  | RISKS
  | COMPLETION
  | COMPLETE
deriving DecidableEq

/-- Position of a stage in the fixed total order. -/
def stageIdx : Stage → Nat
  | .INDUSTRY => 0
  | .GOALS => 1
  | .BUDGET => 2
  | .TIMELINE => 3
  | .FINANCIAL_HEALTH => 4
  | .MARKET_POSITION => 5
  | .RISKS => 6
  | .COMPLETION => 7
  | .COMPLETE => 8

/-- `MAStrategyBot._advance_stage` (app.py lines 443-454): the
`stage_progression` transition table, with `dict.get` defaulting to
COMPLETE for the one stage (COMPLETE) absent from the table. -/
def _advance_stage : Stage → Stage
  | .INDUSTRY => .GOALS
  | .GOALS => .BUDGET
  | .BUDGET => .TIMELINE
  | .TIMELINE => .FINANCIAL_HEALTH
  | .FINANCIAL_HEALTH => .MARKET_POSITION
  | .MARKET_POSITION => .RISKS
  | .RISKS => .COMPLETION
  | .COMPLETION => .COMPLETE
  | .COMPLETE => .COMPLETE

/-- The `MAStrategyInfo` dataclass (app.py lines 345-356). -/
structure MAStrategyInfo where
  industry : Option String := none
  specific_company : Option String := none
  goals : Option String := none
  budget : Option String := none
  timeline : Option String := none
  financial_health : Option String := none
  market_position : Option String := none
  risks_concern : Option String := none
  risks_details : Option String := none
  is_complete : Bool := false
deriving DecidableEq

/-- The mutable state of `MAStrategyBot` that `get_response` reads and
writes (app.py lines 366-373).  The model handle, chat session and
conversation history do not influence the state-machine behaviour under
study and are not part of the state. -/
structure MAStrategyBot where
  current_stage : Stage := .INDUSTRY
  collected_info : MAStrategyInfo := {}
deriving DecidableEq

/-- The `collected_info` object of a successfully parsed model reply
(app.py lines 486-492): the nine optional information fields whose
non-null values are merged into `MAStrategyInfo` by the `setattr` loop.
The reply's `is_complete` entry is overwritten with
`is_strategy_complete` before the loop (line 488) and again after it
(line 494), so its incoming value is irrelevant and not carried. -/
structure CollectedInfoPayload where
  industry : Option String := none
  specific_company : Option String := none
  goals : Option String := none
  budget : Option String := none
  timeline : Option String := none
  financial_health : Option String := none
  market_position : Option String := none
  risks_concern : Option String := none
  risks_details : Option String := none
deriving DecidableEq

/-- A successfully parsed model reply, i.e. the `response_data`
dictionary of app.py line 480, restricted to the keys `get_response`
reads: `answer_complete` and `is_strategy_complete` as their Python
truthiness (an absent key reads as false via `.get(_, False)`),
`collected_info` when the key is present, and `next_message` when
present. -/
structure ResponseData where
  answer_complete : Bool := false
  is_strategy_complete : Bool := false
  collected_info : Option CollectedInfoPayload := none
  next_message : Option String := none
deriving DecidableEq

/-- The outcome of one `self.chat.send_message` attempt inside the retry
loop of `get_response` (app.py lines 463-561), as the code itself
distinguishes them:
* `transportError` — the call raised, landing in the `except Exception`
  handler (line 540);
* `noBraces` — the reply text has no `\x7b`-to-`\x7d` span
  (`start >= 0 and end > start` fails, line 478), so no parse is
  attempted and no exception is raised;
* `malformed text` — a span was extracted but `json.loads` raised
  `JSONDecodeError` (line 506); `text` is the full raw reply text, which
  the final-attempt handler searches for the thank-you phrase (line 510);
* `parsed rd` — `json.loads` succeeded, yielding `rd`. -/
inductive ReplyOutcome where
  | transportError : ReplyOutcome
  | noBraces : ReplyOutcome
  | malformed : String → ReplyOutcome
  | parsed : ResponseData → ReplyOutcome
deriving DecidableEq

/-- Python `not x` truthiness for an optional string field: true for a
missing value and for the empty string. -/
def optStrFalsy : Option String → Bool
  | none => true
  | some s => s.isEmpty

/-- Merging one optional field: `if value is not None: setattr(...)`
(app.py lines 490-492). -/
def mergeField (cur new : Option String) : Option String :=
  match new with
  | none => cur
  | some v => some v

/-- The merge of a reply's `collected_info` into the bot's
`MAStrategyInfo` (app.py lines 486-494): every non-null field wins over
the stored one, and `is_complete` is set to `is_strategy_complete`. -/
def mergeCollected (cur : MAStrategyInfo) (p : CollectedInfoPayload)
    (isStrategyComplete : Bool) : MAStrategyInfo :=
  { industry := mergeField cur.industry p.industry
    specific_company := mergeField cur.specific_company p.specific_company
    goals := mergeField cur.goals p.goals
    budget := mergeField cur.budget p.budget
    timeline := mergeField cur.timeline p.timeline
    financial_health := mergeField cur.financial_health p.financial_health
    market_position := mergeField cur.market_position p.market_position
    risks_concern := mergeField cur.risks_concern p.risks_concern
    risks_details := mergeField cur.risks_details p.risks_details
    is_complete := isStrategyComplete }

/-- The fixed industry vocabulary of the parse-failure fallback
(app.py lines 519-526). -/
def industryKeywords : List String :=
  ["technology", "healthcare", "finance", "education", "retail",
   "manufacturing"]

/-- The first vocabulary keyword occurring in the lowered user text
(the `for industry in [...]` loop of app.py lines 519-527). -/
def findKeyword (lowered : String) : Option String :=
  industryKeywords.find? (fun k => strContains lowered k)

/-- The phrase tested on the final parse-failure attempt
(app.py line 510). -/
def thankYouPhrase : String := "Thank you for providing this information"

/-- The fixed welcome prompt (app.py lines 457-461). -/
def welcomeMsg : String :=
  "Welcome! To begin our M&A strategy discussion, do you have a specific company in mind for acquisition, or are you targeting a particular market or sector?"

/-- The keyword-fallback acknowledgement built by the f-string of
app.py line 531 (also produced, with the literal keyword "education",
by the exception fallback at line 554). -/
def ackMsg (industry : String) : String :=
  "I understand you\x27re interested in the " ++ industry
    ++ " sector. What are your primary goals for this M&A strategy?"

/-- The generic clarification returned when the parse-failure fallback
finds no keyword (app.py lines 535-538). -/
def troubleMsg : String :=
  "I\x27m having trouble processing that. Could you please provide key information clearly? For example, what industry are you targeting and what are your main goals?"

/-- The generic clarification returned by the exception fallback
(app.py lines 558-561). -/
def issueMsg : String :=
  "I encountered an issue processing your request. Could you please clarify your requirements in simple terms?"

/-- The default next message when a parsed reply lacks `next_message`
(app.py lines 500-502). -/
def defaultNextMsg : String := "Could you provide more details?"

/-- The success path for a parsed reply (app.py lines 482-504): read
`is_strategy_complete`, merge `collected_info` when present (setting
`is_complete`), advance the stage when `answer_complete` is truthy, and
return `(next_message, is_strategy_complete)`. -/
def parsedStep (st : MAStrategyBot) (rd : ResponseData) :
    (Option (String × Bool)) × MAStrategyBot :=
  let st1 :=
    match rd.collected_info with
    | some p =>
        { st with collected_info :=
            mergeCollected st.collected_info p rd.is_strategy_complete }
    | none => st
  let st2 :=
    if rd.answer_complete then
      { st1 with current_stage := _advance_stage st1.current_stage }
    else st1
  (some (rd.next_message.getD defaultNextMsg, rd.is_strategy_complete), st2)

/-- The final-attempt `JSONDecodeError` handler (app.py lines 506-538):
thank-you short-circuit, then the industry keyword fallback (only at
stage INDUSTRY with a falsy stored industry), else the generic
clarification. -/
def parseFailureFallback (st : MAStrategyBot) (user text : String) :
    (Option (String × Bool)) × MAStrategyBot :=
  if strContains text thankYouPhrase then
    (some (text, true),
     { st with collected_info :=
         { st.collected_info with is_complete := true } })
  else if st.current_stage = Stage.INDUSTRY
          ∧ optStrFalsy st.collected_info.industry then
    match findKeyword (strToLower user) with
    | some k =>
        (some (ackMsg k, false),
         { st with
             current_stage := _advance_stage st.current_stage
             collected_info :=
               { st.collected_info with industry := some (pyCapitalize k) } })
    | none => (some (troubleMsg, false), st)
  else (some (troubleMsg, false), st)

/-- The final-attempt `except Exception` handler (app.py lines 540-561):
only the literal keyword "education" is checked (at stage INDUSTRY,
with no check that the industry field is still unset); otherwise a
generic clarification is returned with the state untouched. -/
def exceptionFallback (st : MAStrategyBot) (user : String) :
    (Option (String × Bool)) × MAStrategyBot :=
  if st.current_stage = Stage.INDUSTRY
      ∧ strContains (strToLower user) "education" then
    (some (ackMsg "education", false),
     { st with
         current_stage := _advance_stage st.current_stage
         collected_info :=
           { st.collected_info with industry := some "Education" } })
  else (some (issueMsg, false), st)

/-- The retry loop `for retry in range(self.max_retries)` of
`get_response` (app.py lines 463-561).  `replies` carries the outcome of
the model call of each attempt, one entry per loop iteration, so the
list length is the retry budget (`max_retries`, default 3);
`rest.isEmpty` is `retry == self.max_retries - 1`.  A parsed reply
returns immediately; `noBraces` falls through to the next iteration
unconditionally; `malformed` and `transportError` continue unless on the
final attempt, where the respective fallback handler runs.  When the
loop completes without returning, Python returns `None`. -/
def getResponseAttempts (st : MAStrategyBot) (user : String) :
    List ReplyOutcome → (Option (String × Bool)) × MAStrategyBot
  | [] => (none, st)
  | .parsed rd :: _ => parsedStep st rd
  | .noBraces :: rest => getResponseAttempts st user rest
  | .malformed text :: rest =>
      if rest.isEmpty then parseFailureFallback st user text
      else getResponseAttempts st user rest
  | .transportError :: rest =>
      if rest.isEmpty then exceptionFallback st user
      else getResponseAttempts st user rest

/-- Python `not user_message` (app.py line 457): truthy-false for both a
missing message and the empty string. -/
def userFalsy : Option String → Bool
  | none => true
  | some s => s.isEmpty

/-- `MAStrategyBot.get_response` (app.py lines 456-561): the welcome
short-circuit for a falsy user message, then the retry loop.  Returns
the returned value (`none` models Python falling off the end of the
function and returning `None`) together with the bot state after the
call. -/
def get_response (st : MAStrategyBot) (user_message : Option String)
    (replies : List ReplyOutcome) : (Option (String × Bool)) × MAStrategyBot :=
  if userFalsy user_message then (some (welcomeMsg, false), st)
  else getResponseAttempts st (user_message.getD "") replies

/-- A whole conversation: folding `get_response` over a list of
(user message, per-attempt model outcomes) inputs. -/
def runConversation (st : MAStrategyBot) :
    List (Option String × List ReplyOutcome) → MAStrategyBot
  | [] => st
  | (u, rs) :: rest => runConversation (get_response st u rs).2 rest

/-- The raw user text named by testable property 4 of the spec. -/
def techSentence : String := "We\x27re focused on the technology sector"

/-! ## Helper lemmas -/

theorem stageIdx_advance_le (s : Stage) :
    stageIdx s ≤ stageIdx (_advance_stage s) := by
  cases s <;> decide

theorem parsedStep_stage (st : MAStrategyBot) (rd : ResponseData) :
    (parsedStep st rd).2.current_stage = st.current_stage
    ∨ (parsedStep st rd).2.current_stage = _advance_stage st.current_stage := by
  unfold parsedStep
  cases h : rd.collected_info <;> cases h2 : rd.answer_complete <;> simp [h, h2]

theorem parseFailureFallback_stage (st : MAStrategyBot) (u t : String) :
    (parseFailureFallback st u t).2.current_stage = st.current_stage
    ∨ (parseFailureFallback st u t).2.current_stage
        = _advance_stage st.current_stage := by
  unfold parseFailureFallback
  split_ifs
  · exact Or.inl rfl
  · cases h : findKeyword (strToLower u) <;> simp [h]
  · exact Or.inl rfl

theorem exceptionFallback_stage (st : MAStrategyBot) (u : String) :
    (exceptionFallback st u).2.current_stage = st.current_stage
    ∨ (exceptionFallback st u).2.current_stage
        = _advance_stage st.current_stage := by
  unfold exceptionFallback
  split_ifs <;> simp

theorem getResponseAttempts_stage (st : MAStrategyBot) (u : String)
    (rs : List ReplyOutcome) :
    (getResponseAttempts st u rs).2.current_stage = st.current_stage
    ∨ (getResponseAttempts st u rs).2.current_stage
        = _advance_stage st.current_stage := by
  induction rs with
  | nil => exact Or.inl rfl
  | cons r rest ih =>
    cases r with
    | parsed rd => exact parsedStep_stage st rd
    | noBraces => exact ih
    | malformed t =>
      simp only [getResponseAttempts]
      split_ifs
      · exact parseFailureFallback_stage st u t
      · exact ih
    | transportError =>
      simp only [getResponseAttempts]
      split_ifs
      · exact exceptionFallback_stage st u
      · exact ih

theorem get_response_stage (st : MAStrategyBot) (u : Option String)
    (rs : List ReplyOutcome) :
    (get_response st u rs).2.current_stage = st.current_stage
    ∨ (get_response st u rs).2.current_stage
        = _advance_stage st.current_stage := by
  unfold get_response
  split_ifs
  · exact Or.inl rfl
  · exact getResponseAttempts_stage st _ rs

theorem get_response_stageIdx_le (st : MAStrategyBot) (u : Option String)
    (rs : List ReplyOutcome) :
    stageIdx st.current_stage ≤ stageIdx (get_response st u rs).2.current_stage := by
  rcases get_response_stage st u rs with h | h
  · rw [h]
  · rw [h]; exact stageIdx_advance_le st.current_stage

theorem runConversation_stageIdx_le
    (inputs : List (Option String × List ReplyOutcome)) :
    ∀ st : MAStrategyBot,
      stageIdx st.current_stage
        ≤ stageIdx (runConversation st inputs).current_stage := by
  induction inputs with
  | nil => intro st; exact le_refl _
  | cons p rest ih =>
    intro st
    obtain ⟨u, rs⟩ := p
    exact le_trans (get_response_stageIdx_le st u rs) (ih _)

theorem reconcilerEntry_progress_le (present : Bool) (f : ℚ)
    (m t i : String) (s : ProcessingStatus) :
    s.progress ≤ (reconcilerEntry present f m t i s).progress := by
  unfold reconcilerEntry
  split_ifs with hp hf
  · exact le_of_lt hf
  · exact le_refl _
  · exact le_refl _

theorem reconcilerEntry_is_running (present : Bool) (f : ℚ)
    (m t i : String) (s : ProcessingStatus) :
    (reconcilerEntry present f m t i s).is_running = s.is_running := by
  unfold reconcilerEntry
  split_ifs <;> rfl

theorem process_change_progress_le (b : Bool) (p : String)
    (s : ProcessingStatus) (h : s.progress ≤ 1) :
    s.progress ≤ (process_change b p s).progress := by
  unfold process_change
  split_ifs
  · exact le_refl _
  · exact le_max_right _ _
  · exact le_max_right _ _
  · exact le_max_right _ _
  · exact h
  · exact le_refl _
  · exact le_refl _

theorem check_file_updates_progress_le (fs : ArtifactsPresent)
    (s : ProcessingStatus) (h : s.progress ≤ 1) :
    s.progress ≤ (check_file_updates fs s).progress := by
  unfold check_file_updates
  dsimp only
  split_ifs
  · exact h
  · exact le_trans (reconcilerEntry_progress_le _ _ _ _ _ _)
      (le_trans (reconcilerEntry_progress_le _ _ _ _ _ _)
        (le_trans (reconcilerEntry_progress_le _ _ _ _ _ _)
          (reconcilerEntry_progress_le _ _ _ _ _ _)))

theorem max_absorb_left (a b : ℚ) : max a (max a b) = max a b := by
  rw [← max_assoc, max_self]

theorem process_change_idem (b : Bool) (p : String) (s : ProcessingStatus) :
    process_change b p (process_change b p s) = process_change b p s := by
  unfold process_change
  split_ifs <;> simp [max_absorb_left, Finset.insert_idem]

/-! ## Claim C1 -/

/-- C1, counterexample: the claim says no operation on the shared
processing status ever lowers the progress field, quantifying over
pipeline-runner per-stage updates as well.  But the runner's per-agent
update (app.py lines 640-648) assigns the table fraction
unconditionally: starting from the initial status, a watcher event for
`companies.json` raises progress to 3/4, after which the runner update
for agent "strategist" lowers it to 1/4. -/
theorem C1_runner_update_lowers_progress :
    (runnerAgentUpdate "strategist"
        (process_change false "outputs/companies.json" initProcessingStatus)).progress
      < (process_change false "outputs/companies.json"
          initProcessingStatus).progress := by
  decide

/-- C1 (amended): progress is non-decreasing under file-watcher events
(`_process_change`) and reconciler ticks (`check_file_updates`), for any
status whose progress does not exceed 1 (as holds for every status the
program builds); the pipeline-runner per-agent update is excluded, since
it assigns its fixed fraction unconditionally and can lower progress. -/
theorem C1_watcher_reconciler_progress_monotone
    (s : ProcessingStatus) (isDir : Bool) (path : String)
    (fs : ArtifactsPresent) (h : s.progress ≤ 1) :
    s.progress ≤ (process_change isDir path s).progress
    ∧ s.progress ≤ (check_file_updates fs s).progress :=
  ⟨process_change_progress_le isDir path s h,
   check_file_updates_progress_le fs s h⟩

/-- C1 witness: the amended monotonicity theorem applied at the initial
status, a concrete watcher event and a concrete artifact situation. -/
theorem C1_watcher_reconciler_progress_monotone_witness :
    initProcessingStatus.progress
        ≤ (process_change false "outputs/output.md" initProcessingStatus).progress
    ∧ initProcessingStatus.progress
        ≤ (check_file_updates ⟨true, false, false, false⟩
            initProcessingStatus).progress :=
  C1_watcher_reconciler_progress_monotone initProcessingStatus false
    "outputs/output.md" ⟨true, false, false, false⟩ (by decide)

/-! ## Claim C2 -/

/-- C2: whatever the model replies on each attempt of a `get_response`
call (well-formed, malformed, brace-less, or a raised transport error),
the stage after the call is either the stage before it or its unique
successor under the transition table, the stage's position in the fixed
total order never decreases across a whole conversation, and COMPLETE is
absorbing. -/
theorem C2_stage_monotone_one_step (st : MAStrategyBot)
    (u : Option String) (rs : List ReplyOutcome)
    (inputs : List (Option String × List ReplyOutcome)) :
    ((get_response st u rs).2.current_stage = st.current_stage
      ∨ (get_response st u rs).2.current_stage
          = _advance_stage st.current_stage)
    ∧ stageIdx st.current_stage
        ≤ stageIdx (runConversation st inputs).current_stage
    ∧ _advance_stage Stage.COMPLETE = Stage.COMPLETE :=
  ⟨get_response_stage st u rs, runConversation_stageIdx_le inputs st, rfl⟩

/-! ## Claim C3 -/

/-- C3: the spec claims the start-pipeline command is idempotent (a
no-op when a run is already in progress, spawning no second runner
thread and leaving the status unchanged), and the
`ANALYSIS_THREAD_STARTED` guard in `main` (app.py lines 900-904) and in
`check_file_updates` (line 327) shows single-start is the code's intent;
but the `Generate Strategy` button handler (lines 893-898) spawns the
runner thread without setting that guard flag.  Concretely: from the
state where the conversation has ended and nothing is started, the
button press spawns thread one and leaves `analysis_thread_started`
false; that thread's startup (`runnerStart`) marks the status running;
and the immediately following script rerun spawns a second thread.  The
second thread's `runnerStart` also rewrites the status of the run in
progress, so the status is not left unchanged either. -/
theorem C3_start_command_not_idempotent :
    mainStartStep ⟨true, false, false⟩ true = (1, ⟨true, true, false⟩)
    ∧ (runnerStart 0 initProcessingStatus).is_running = true
    ∧ (mainStartStep ⟨true, true, false⟩ false).1 = 1
    ∧ runnerStart 1 (runnerAgentUpdate "researcher"
          (runnerStart 0 initProcessingStatus))
        ≠ runnerAgentUpdate "researcher" (runnerStart 0 initProcessingStatus) := by
  refine ⟨rfl, rfl, rfl, ?_⟩
  decide

/-! ## Claim C4 -/

/-- C4: whenever all four milestone artifacts exist with non-zero size
and the status is running, one `check_file_updates` tick sets
`is_running` to false and progress to 1 — the reconciler reads the
artifact flags directly, so this holds regardless of any watcher
events. -/
theorem C4_reconciler_forces_completion
    (fs : ArtifactsPresent) (s : ProcessingStatus)
    (h1 : fs.strategy_info = true) (h2 : fs.strategy_report = true)
    (h3 : fs.companies = true) (h4 : fs.valuation_report = true)
    (h5 : s.is_running = true) :
    (check_file_updates fs s).is_running = false
    ∧ (check_file_updates fs s).progress = 1 := by
  simp [check_file_updates, reconcilerEntry_is_running, filesFound,
    h1, h2, h3, h4, h5]

/-- C4 witness: the reconciler completion theorem applied to a running
initial status with all four artifacts present. -/
theorem C4_reconciler_forces_completion_witness :
    (check_file_updates ⟨true, true, true, true⟩
        { initProcessingStatus with is_running := true }).is_running = false
    ∧ (check_file_updates ⟨true, true, true, true⟩
        { initProcessingStatus with is_running := true }).progress = 1 :=
  C4_reconciler_forces_completion ⟨true, true, true, true⟩
    { initProcessingStatus with is_running := true } rfl rfl rfl rfl rfl

/-! ## Claim C5 -/

/-- C5, counterexample: the claim says a well-formed reply carrying
`is_strategy_complete = true` at stage RISKS moves the stage to
COMPLETION, but `get_response` advances the stage only when the reply's
`answer_complete` is truthy (app.py line 496): with
`answer_complete = false` the call returns `is_complete = true` yet the
stage stays at RISKS. -/
theorem C5_no_advance_without_answer_complete :
    (get_response { current_stage := Stage.RISKS } (some "msg")
        [ReplyOutcome.parsed
          { answer_complete := false, is_strategy_complete := true,
            collected_info := some {}, next_message := some "done" },
         ReplyOutcome.noBraces, ReplyOutcome.noBraces]).2.current_stage
      = Stage.RISKS
    ∧ (get_response { current_stage := Stage.RISKS } (some "msg")
        [ReplyOutcome.parsed
          { answer_complete := false, is_strategy_complete := true,
            collected_info := some {}, next_message := some "done" },
         ReplyOutcome.noBraces, ReplyOutcome.noBraces]).1
      = some ("done", true) := by
  refine ⟨?_, ?_⟩ <;> decide

/-- C5 (amended): a well-formed reply received at stage RISKS that
carries `is_strategy_complete = true` AND `answer_complete = true` moves
the stage to COMPLETION and returns `is_complete = true`; without
`answer_complete` the stage is not advanced. -/
theorem C5_complete_reply_advances_to_completion
    (st : MAStrategyBot) (u : String) (rd : ResponseData)
    (rest : List ReplyOutcome)
    (hu : u.isEmpty = false)
    (hstage : st.current_stage = Stage.RISKS)
    (hac : rd.answer_complete = true)
    (hsc : rd.is_strategy_complete = true) :
    (get_response st (some u) (ReplyOutcome.parsed rd :: rest)).2.current_stage
      = Stage.COMPLETION
    ∧ (get_response st (some u) (ReplyOutcome.parsed rd :: rest)).1
      = some (rd.next_message.getD defaultNextMsg, true) := by
  unfold get_response
  simp only [userFalsy, hu, Bool.false_eq_true, if_false]
  simp only [getResponseAttempts]
  unfold parsedStep
  cases h : rd.collected_info <;>
    simp [h, hac, hsc, hstage, _advance_stage]

/-- C5 witness: the amended theorem applied to a concrete bot at RISKS
and a concrete completing reply. -/
theorem C5_complete_reply_advances_to_completion_witness :
    (get_response { current_stage := Stage.RISKS } (some "all set")
        [ReplyOutcome.parsed
          { answer_complete := true, is_strategy_complete := true,
            collected_info := some {}, next_message := some "done" },
         ReplyOutcome.noBraces, ReplyOutcome.noBraces]).2.current_stage
      = Stage.COMPLETION
    ∧ (get_response { current_stage := Stage.RISKS } (some "all set")
        [ReplyOutcome.parsed
          { answer_complete := true, is_strategy_complete := true,
            collected_info := some {}, next_message := some "done" },
         ReplyOutcome.noBraces, ReplyOutcome.noBraces]).1
      = some (((some "done" : Option String)).getD defaultNextMsg, true) :=
  C5_complete_reply_advances_to_completion { current_stage := Stage.RISKS }
    "all set"
    { answer_complete := true, is_strategy_complete := true,
      collected_info := some {}, next_message := some "done" }
    [ReplyOutcome.noBraces, ReplyOutcome.noBraces] rfl rfl rfl rfl

/-! ## Claim C6 -/

/-- C6, counterexample: the claim says that after transport-error
exhaustion the same keyword fallback as for parse failure applies, so
the keyword "technology" in the user text at stage INDUSTRY would set
the industry field and advance to GOALS; but the `except Exception`
handler (app.py lines 547-556) checks only the literal "education", so
with the technology sentence the call returns the generic clarification
and leaves the bot state completely unchanged. -/
theorem C6_transport_fallback_ignores_vocabulary :
    (get_response {} (some techSentence)
        [ReplyOutcome.transportError, ReplyOutcome.transportError,
         ReplyOutcome.transportError]).1 = some (issueMsg, false)
    ∧ (get_response {} (some techSentence)
        [ReplyOutcome.transportError, ReplyOutcome.transportError,
         ReplyOutcome.transportError]).2 = ({} : MAStrategyBot) := by
  refine ⟨?_, ?_⟩ <;> decide

/-- C6 (amended): after the retry budget is exhausted on transport
failures, the fallback differs from the parse-failure one: only the
single keyword "education" is checked (case-insensitively, with no
check that the industry field is still unset), in which case industry
is set to "Education" and the stage advanced; for any other text a
generic clarification (`issueMsg`, a different message from the
parse-failure path's `troubleMsg`) is returned without mutating stage
or record. -/
theorem C6_transport_fallback_education_only
    (st : MAStrategyBot) (u : String) (hu : u.isEmpty = false) :
    get_response st (some u)
        [ReplyOutcome.transportError, ReplyOutcome.transportError,
         ReplyOutcome.transportError]
      = if st.current_stage = Stage.INDUSTRY
            ∧ strContains (strToLower u) "education" then
          (some (ackMsg "education", false),
           { st with
               current_stage := _advance_stage st.current_stage
               collected_info :=
                 { st.collected_info with industry := some "Education" } })
        else (some (issueMsg, false), st) := by
  unfold get_response
  simp only [userFalsy, hu, Bool.false_eq_true, if_false]
  simp only [getResponseAttempts, List.isEmpty_cons, List.isEmpty_nil,
    if_false, if_true]
  rfl

/-- C6 witness: the amended transport-fallback theorem applied to a
concrete bot and user text. -/
theorem C6_transport_fallback_education_only_witness :
    get_response {} (some "We want an education company")
        [ReplyOutcome.transportError, ReplyOutcome.transportError,
         ReplyOutcome.transportError]
      = if ({} : MAStrategyBot).current_stage = Stage.INDUSTRY
            ∧ strContains (strToLower "We want an education company")
                "education" then
          (some (ackMsg "education", false),
           { ({} : MAStrategyBot) with
               current_stage := _advance_stage ({} : MAStrategyBot).current_stage
               collected_info :=
                 { ({} : MAStrategyBot).collected_info with
                     industry := some "Education" } })
        else (some (issueMsg, false), {}) :=
  C6_transport_fallback_education_only {} "We want an education company" rfl

/-! ## Claim C7 -/

/-- C7, counterexample: the claim says that whenever the model reply
fails to parse on all retry attempts at stage INDUSTRY with the
technology sentence as user text, the keyword fallback fires; but if
the final failing reply happens to contain the phrase
"Thank you for providing this information" (app.py line 510), the call
instead returns that raw text with `is_complete = true`, leaving the
industry unset and the stage at INDUSTRY. -/
theorem C7_thankyou_reply_shortcircuits_fallback :
    (get_response {} (some techSentence)
        [ReplyOutcome.malformed "\x7bx\x7d", ReplyOutcome.malformed "\x7bx\x7d",
         ReplyOutcome.malformed
           "Thank you for providing this information \x7bx\x7d"]).1
      = some ("Thank you for providing this information \x7bx\x7d", true)
    ∧ (get_response {} (some techSentence)
        [ReplyOutcome.malformed "\x7bx\x7d", ReplyOutcome.malformed "\x7bx\x7d",
         ReplyOutcome.malformed
           "Thank you for providing this information \x7bx\x7d"]).2.collected_info.industry
      = none
    ∧ (get_response {} (some techSentence)
        [ReplyOutcome.malformed "\x7bx\x7d", ReplyOutcome.malformed "\x7bx\x7d",
         ReplyOutcome.malformed
           "Thank you for providing this information \x7bx\x7d"]).2.current_stage
      = Stage.INDUSTRY := by
  refine ⟨?_, ?_, ?_⟩ <;> decide

/-- C7 (amended): if every one of the three replies raises a JSON decode
error, the final reply's text does not contain the thank-you phrase, the
bot is at stage INDUSTRY with the industry field still unset (Python
falsy), and the raw user text is the technology sentence, then
`get_response` sets the industry field to "Technology", advances to
GOALS, and returns the keyword acknowledgement with a non-complete
flag. -/
theorem C7_parse_failure_technology_fallback
    (st : MAStrategyBot) (t1 t2 t3 : String)
    (hstage : st.current_stage = Stage.INDUSTRY)
    (hind : optStrFalsy st.collected_info.industry = true)
    (hty : strContains t3 thankYouPhrase = false) :
    get_response st (some techSentence)
        [ReplyOutcome.malformed t1, ReplyOutcome.malformed t2,
         ReplyOutcome.malformed t3]
      = (some (ackMsg "technology", false),
         { st with
             current_stage := Stage.GOALS
             collected_info :=
               { st.collected_info with industry := some "Technology" } }) := by
  unfold get_response
  have hu : userFalsy (some techSentence) = false := rfl
  simp only [hu, Bool.false_eq_true, if_false]
  simp only [getResponseAttempts, List.isEmpty_cons, List.isEmpty_nil,
    if_false, if_true]
  unfold parseFailureFallback
  have hk : findKeyword (strToLower techSentence) = some "technology" := by decide
  have hcap : pyCapitalize "technology" = "Technology" := by decide
  simp [hty, hstage, hind, hk, hcap, _advance_stage]

/-- C7 witness: the amended fallback theorem applied to the initial bot
and three concrete decode-failing replies. -/
theorem C7_parse_failure_technology_fallback_witness :
    get_response {} (some techSentence)
        [ReplyOutcome.malformed "\x7bx\x7d", ReplyOutcome.malformed "\x7bx\x7d",
         ReplyOutcome.malformed "\x7bx\x7d"]
      = (some (ackMsg "technology", false),
         { ({} : MAStrategyBot) with
             current_stage := Stage.GOALS
             collected_info :=
               { ({} : MAStrategyBot).collected_info with
                   industry := some "Technology" } }) :=
  C7_parse_failure_technology_fallback {} "\x7bx\x7d" "\x7bx\x7d" "\x7bx\x7d"
    rfl rfl (by decide)

/-! ## Claim C8 -/

/-- C8, counterexample: the claim says both the watcher path and the
reconciler path leave message and current_task unchanged whenever the
raised fraction does not strictly exceed the current progress.  In the
watcher path this fails: after a `companies.json` event has raised
progress to 3/4, a `strategy_info.json` event (fraction 1/4) leaves
progress at 3/4 via the `max` merge but still overwrites the message
(app.py lines 110-112 run unconditionally inside the branch). -/
theorem C8_watcher_overwrites_message_without_raise :
    (process_change false "outputs/strategy_info.json"
        (process_change false "outputs/companies.json"
          initProcessingStatus)).progress
      = (process_change false "outputs/companies.json"
          initProcessingStatus).progress
    ∧ (process_change false "outputs/strategy_info.json"
        (process_change false "outputs/companies.json"
          initProcessingStatus)).message
      ≠ (process_change false "outputs/companies.json"
          initProcessingStatus).message := by
  refine ⟨?_, ?_⟩ <;> decide

/-- C8 (amended): only the reconciler path has the claimed frame
property — when the entry's fraction does not strictly exceed the
current progress it leaves the whole status (message, current_task,
progress and completed set) unchanged; the watcher path overwrites
message/current_task unconditionally for its matched artifact (merging
only progress with `max`), and repeating the same watcher event is
idempotent on the status, so the completed-task insert is idempotent. -/
theorem C8_raise_frame_semantics
    (s : ProcessingStatus) (present isDir : Bool) (frac : ℚ)
    (msg task tid path : String)
    (h : ¬ frac > s.progress) :
    reconcilerEntry present frac msg task tid s = s
    ∧ process_change isDir path (process_change isDir path s)
        = process_change isDir path s
    ∧ (process_change false (BASE_DIR ++ "/strategy_info.json") s).message
        = "Strategy information collected" := by
  refine ⟨?_, process_change_idem isDir path s, rfl⟩
  cases present
  · rfl
  · show (if frac > s.progress then _ else s) = s
    rw [if_neg h]

/-- C8 witness: the frame-semantics theorem applied to a status at
progress 3/4 and a non-exceeding fraction 1/4. -/
theorem C8_raise_frame_semantics_witness :
    reconcilerEntry true (mkRat 1 4) "Strategy information collected"
        "Researching companies" "strategy"
        { initProcessingStatus with progress := mkRat 3 4 }
      = { initProcessingStatus with progress := mkRat 3 4 }
    ∧ process_change false "outputs/output.md"
        (process_change false "outputs/output.md"
          { initProcessingStatus with progress := mkRat 3 4 })
      = process_change false "outputs/output.md"
          { initProcessingStatus with progress := mkRat 3 4 }
    ∧ (process_change false (BASE_DIR ++ "/strategy_info.json")
        { initProcessingStatus with progress := mkRat 3 4 }).message
      = "Strategy information collected" :=
  C8_raise_frame_semantics { initProcessingStatus with progress := mkRat 3 4 }
    true false (mkRat 1 4) "Strategy information collected"
    "Researching companies" "strategy" "outputs/output.md" (by decide)

/-! ## Claim C9 -/

/-- C9, counterexample: the claim says `is_complete` holds exactly when
the stage has reached COMPLETION or COMPLETE.  One step from the
initial bot refutes it: a parsed reply with `is_strategy_complete =
true` but `answer_complete = false` sets `is_complete` while leaving
the stage at INDUSTRY (app.py lines 486-497 couple `is_complete` to the
reply flag, and stage advancement to `answer_complete` only). -/
theorem C9_is_complete_not_iff_stage :
    ¬ (((get_response {} (some "hello")
          [ReplyOutcome.parsed
            { answer_complete := false, is_strategy_complete := true,
              collected_info := some {}, next_message := some "m" },
           ReplyOutcome.noBraces,
           ReplyOutcome.noBraces]).2.collected_info.is_complete = true)
        ↔ ((get_response {} (some "hello")
            [ReplyOutcome.parsed
              { answer_complete := false, is_strategy_complete := true,
                collected_info := some {}, next_message := some "m" },
             ReplyOutcome.noBraces,
             ReplyOutcome.noBraces]).2.current_stage = Stage.COMPLETION
          ∨ (get_response {} (some "hello")
              [ReplyOutcome.parsed
                { answer_complete := false, is_strategy_complete := true,
                  collected_info := some {}, next_message := some "m" },
               ReplyOutcome.noBraces,
               ReplyOutcome.noBraces]).2.current_stage = Stage.COMPLETE)) := by
  decide

/-- C9 (amended): the record's `is_complete` flag is not coupled to the
stage: after any parsed reply that carries a `collected_info` object it
simply equals that reply's `is_strategy_complete` flag, whatever the
stage before or after the call. -/
theorem C9_is_complete_tracks_reply_flag
    (st : MAStrategyBot) (u : String) (rd : ResponseData)
    (p : CollectedInfoPayload) (rest : List ReplyOutcome)
    (hu : u.isEmpty = false) (hci : rd.collected_info = some p) :
    (get_response st (some u)
        (ReplyOutcome.parsed rd :: rest)).2.collected_info.is_complete
      = rd.is_strategy_complete := by
  unfold get_response
  simp only [userFalsy, hu, Bool.false_eq_true, if_false]
  simp only [getResponseAttempts]
  unfold parsedStep
  rw [hci]
  cases rd.answer_complete <;> simp [mergeCollected]

/-- C9 witness: the flag-tracking theorem applied to the initial bot
and a concrete completing reply. -/
theorem C9_is_complete_tracks_reply_flag_witness :
    (get_response {} (some "hi")
        [ReplyOutcome.parsed
          { answer_complete := false, is_strategy_complete := true,
            collected_info := some {}, next_message := none },
         ReplyOutcome.noBraces]).2.collected_info.is_complete
      = ({ answer_complete := false, is_strategy_complete := true,
           collected_info := some {}, next_message := none }
          : ResponseData).is_strategy_complete :=
  C9_is_complete_tracks_reply_flag {} "hi"
    { answer_complete := false, is_strategy_complete := true,
      collected_info := some {}, next_message := none }
    {} [ReplyOutcome.noBraces] rfl rfl

/-! ## Claim C10 -/

/-- C10: if every model reply in the retry loop has no extractable
brace span (so no parse is attempted and no `JSONDecodeError` is ever
raised), `get_response` falls off the end of its loop and returns
`None` with the bot state untouched — neither the keyword fallback nor
the generic clarification is produced for this shape of parse
failure. -/
theorem C10_no_brace_replies_return_none
    (st : MAStrategyBot) (u : String) (replies : List ReplyOutcome)
    (hu : u.isEmpty = false)
    (hnb : ∀ r ∈ replies, r = ReplyOutcome.noBraces) :
    get_response st (some u) replies = (none, st) := by
  unfold get_response
  simp only [userFalsy, hu, Bool.false_eq_true, if_false]
  induction replies with
  | nil => rfl
  | cons r rest ih =>
    have hr : r = ReplyOutcome.noBraces := hnb r (List.mem_cons_self r rest)
    subst hr
    simp only [getResponseAttempts]
    exact ih (fun r h => hnb r (List.mem_cons_of_mem _ h))

/-- C10 witness: the theorem applied to the initial bot and three
brace-less replies. -/
theorem C10_no_brace_replies_return_none_witness :
    get_response {} (some "hello")
        [ReplyOutcome.noBraces, ReplyOutcome.noBraces, ReplyOutcome.noBraces]
      = (none, {}) :=
  C10_no_brace_replies_return_none {} "hello"
    [ReplyOutcome.noBraces, ReplyOutcome.noBraces, ReplyOutcome.noBraces]
    rfl (by decide)

end MnaApp
